import Mathlib

/-!
Shallow embedding of `src/backend/app.py` (PWA Offline Data Collector API,
Flask backend).

Modelling decisions:
* Values appearing in parsed JSON bodies and in the persisted records are
  modelled by `JVal`; Python dicts by association lists with first-match
  lookup (keys coming from JSON parsing are unique, so first-match lookup
  agrees with Python dict lookup).
* Python floats are modelled as extended rationals (`PyFloat`); rounding of
  decimal literals to binary floating point is not modelled.  No claim
  depends on the rounded value of a coercion, only on whether it succeeds.
* The two `datetime.now().isoformat()` calls inside `submit_data` are
  modelled as a single receipt instant `now`; the claims quantify over one
  server receipt time.
* The HTTP layer (Flask routing, `request.is_json`, JSON parsing) is out of
  scope; handlers receive the parsed JSON object directly.  The file system
  is modelled by passing the stored collection in and out explicitly, with a
  Boolean `saveOk` for success of the file write and an `Except` input for
  the raw outcome of a file read.
-/

namespace PWA

/-- A Python float: a finite value (rational, rounding not modelled), a
signed infinity, or NaN. -/
inductive PyFloat where
  | finite (q : ℚ)
  | inf (pos : Bool)
  | nan
  deriving DecidableEq

/-- A Python value occurring in a parsed JSON body or a stored record:
`None`, `bool`, a number (`int`/`float` collapsed; no claim separates
them), `str`, `list`, `dict`. -/
inductive JVal where
  | jnull
  | jbool (b : Bool)
  | jnum (x : PyFloat)
  | jstr (s : String)
  | jarr (l : List JVal)
  | jobj (l : List (String × JVal))

/-- A Python dict with string keys, as produced by JSON parsing. -/
abbrev PyDict := List (String × JVal)

/-- `d.get(k)`: `None` (here `none`) when the key is absent. -/
def dictGet (d : PyDict) (k : String) : Option JVal :=
  match d with
  | [] => none
  | (k1, v) :: rest => if k1 = k then some v else dictGet rest k

/-- `d.get(k, default)`. -/
def dictGetD (d : PyDict) (k : String) (dflt : JVal) : JVal :=
  (dictGet d k).getD dflt

/-- Python truthiness (`bool(v)`) of a JSON-originated value. -/
def pyTruthy : JVal → Bool
  | .jnull => false
  | .jbool b => b
  | .jnum (.finite q) => q != 0
  | .jnum (.inf _) => true
  | .jnum .nan => true
  | .jstr s => s != ""
  | .jarr l => !l.isEmpty
  | .jobj l => !l.isEmpty

/-- The whitespace characters stripped by Python `str.strip()` (the ASCII
ones; exotic Unicode spaces are not modelled, no claim uses them). -/
def isPySpace (c : Char) : Bool :=
  c = ' ' || c = '\t' || c = '\n' || c = '\r' || c = '\x0b' || c = '\x0c'

/-- Python `s.strip()`. -/
def pyStrip (s : String) : String :=
  String.mk (((s.toList.dropWhile isPySpace).reverse.dropWhile isPySpace).reverse)

/-- Python `str(v)`.  `str` of a string is the string itself — the only case
any claim inspects.  The representations of numbers and containers are
abbreviated stand-ins for Python repr output (no claim depends on them). -/
def pyStr : JVal → String
  | .jstr s => s
  | .jbool b => if b then "True" else "False"
  | .jnull => "None"
  | .jnum (.finite q) => toString q
  | .jnum (.inf pos) => if pos then "inf" else "-inf"
  | .jnum .nan => "nan"
  | .jarr _ => "[list]"
  | .jobj _ => "[dict]"

/-- Numeric value of a list of decimal digit characters. -/
def natOfDigits (l : List Char) : ℕ :=
  l.foldl (fun n c => 10 * n + (c.toNat - 48)) 0

/-- Scale a rational by a (possibly negative) power of ten, for the exponent
part of a float literal. -/
def applyExp (q : ℚ) (e : ℤ) : ℚ :=
  if 0 ≤ e then q * (10 : ℚ) ^ e.toNat else q / (10 : ℚ) ^ (-e).toNat

/-- Parse an optionally signed run of decimal digits (the exponent of a
float literal). -/
def parseDec (l : List Char) : Option ℤ :=
  match l with
  | '+' :: r => if !r.isEmpty && r.all Char.isDigit then some (natOfDigits r : ℤ) else none
  | '-' :: r => if !r.isEmpty && r.all Char.isDigit then some (-(natOfDigits r : ℤ)) else none
  | _ => if !l.isEmpty && l.all Char.isDigit then some (natOfDigits l : ℤ) else none

/-- Parse the mantissa of a float literal: digits with an optional decimal
point, at least one digit in total. -/
def parseMantissa (l : List Char) : Option ℚ :=
  match l.splitOn '.' with
  | [ip] =>
    if !ip.isEmpty && ip.all Char.isDigit then some (natOfDigits ip : ℚ) else none
  | [ip, fp] =>
    if !(ip ++ fp).isEmpty && (ip ++ fp).all Char.isDigit then
      some ((natOfDigits (ip ++ fp) : ℚ) / (10 : ℚ) ^ fp.length)
    else none
  | _ => none

/-- Python `float(s)` on a string: strip whitespace, optional sign, then a
decimal literal with optional fraction and exponent, or `inf`, `infinity`,
`nan` (case-insensitive).  Digit-group underscores are not modelled (no
claim uses them).  `none` models `ValueError`. -/
def parsePyFloat (s : String) : Option PyFloat :=
  let t := ((s.toList.dropWhile isPySpace).reverse.dropWhile isPySpace).reverse
  let signBody : Bool × List Char :=
    match t with
    | '+' :: r => (true, r)
    | '-' :: r => (false, r)
    | _ => (true, t)
  let pos := signBody.1
  let low := signBody.2.map Char.toLower
  if low = "inf".toList ∨ low = "infinity".toList then some (.inf pos)
  else if low = "nan".toList then some .nan
  else
    match low.splitOn 'e' with
    | [m] => (parseMantissa m).map (fun q => .finite (if pos then q else -q))
    | [m, ex] =>
      match parseMantissa m, parseDec ex with
      | some q, some e => some (.finite (applyExp (if pos then q else -q) e))
      | _, _ => none
    | _ => none

/-- The two exception classes `submit_data` distinguishes: `ValueError`
(caught, 400) and `TypeError` (reaches the generic `except Exception`,
500).  Python wraps the offending value of a `ValueError` in repr quotes;
the quotes are omitted from the modelled message text. -/
inductive PyErr where
  | valueError (msg : String)
  | typeError (msg : String)
  deriving DecidableEq

/-- Python `float(v)` on a JSON-originated value: numbers pass through,
bools map to 0/1, strings are parsed (`ValueError` on failure), and
`None`/`list`/`dict` raise `TypeError`. -/
def pyFloat : JVal → Except PyErr PyFloat
  | .jnum x => .ok x
  | .jbool b => .ok (.finite (if b then 1 else 0))
  | .jstr s =>
    match parsePyFloat s with
    | some x => .ok x
    | none => .error (.valueError ("could not convert string to float: " ++ s))
  | .jnull => .error (.typeError "float() argument must be a string or a real number, not NoneType")
  | .jarr _ => .error (.typeError "float() argument must be a string or a real number, not list")
  | .jobj _ => .error (.typeError "float() argument must be a string or a real number, not dict")

/-! ## Store -/

/-- `load_data()`: the raw outcome of reading and JSON-parsing the data file
is the argument (`Except.error` models any raised exception); the `except`
clause converts a failure into the empty list. -/
def load_data (raw : Except String (List PyDict)) : List PyDict :=
  match raw with
  | .ok d => d
  | .error _ => []

/-- `item.get('id', 0)` as consumed by `get_next_id`.  Records produced by
this program always carry a finite numeric `id`; other shapes (on which
Python `max` would raise) are mapped to 0. -/
def pyIdVal (item : PyDict) : ℚ :=
  match dictGet item "id" with
  | some (.jnum (.finite q)) => q
  | _ => 0

/-- `get_next_id()`: 1 on an empty collection, else
`max(item.get('id', 0) for item in data) + 1`.  The collection is passed in
(a successful `load_data`). -/
def get_next_id (data : List PyDict) : ℚ :=
  match data with
  | [] => 1
  | x :: xs => (xs.foldl (fun m item => max m (pyIdVal item)) (pyIdVal x)) + 1

/-! ## Submission handler -/

/-- The outcomes of `submit_data`, by response: 400 `Empty request body`,
400 `Missing required fields` with the list, 400 `Validation error: ...`
(the `except ValueError` arm), 500 `Internal server error` (the generic
`except Exception` arm), 500 `Failed to save data`, 201 success with the
assigned id. -/
inductive SubmitResult where
  | emptyBody
  | missingFields (fields : List String)
  | validationError (msg : String)
  | internalError
  | storageError
  | success (id : ℚ)
  deriving DecidableEq

/-- Whether a result is the 400 `Validation error` response. -/
def SubmitResult.isValidationError : SubmitResult → Bool
  | .validationError _ => true
  | _ => false

/-- Whether a result is one of the failures detected during validation,
before any persistence is attempted: empty body, missing required fields,
or a `value`-coercion failure (`ValueError` giving the 400, `TypeError`
giving the generic 500). -/
def SubmitResult.isValidationFailure : SubmitResult → Bool
  | .emptyBody => true
  | .missingFields _ => true
  | .validationError _ => true
  | .internalError => true
  | _ => false

/-- `required_fields = ['title', 'category']`. -/
def required_fields : List String := ["title", "category"]

/-- `not data.get(field)`: absent, or present and falsy. -/
def fieldMissing (data : PyDict) (f : String) : Bool :=
  match dictGet data f with
  | none => true
  | some v => !pyTruthy v

/-- `[field for field in required_fields if not data.get(field)]`. -/
def missingList (data : PyDict) : List String :=
  required_fields.filter (fieldMissing data)

/-- The `'value'` entry of the sanitized dict:
`float(data.get('value')) if data.get('value') is not None else None`.
A raised exception propagates as `Except.error`. -/
def coerceValue (data : PyDict) : Except PyErr (Option PyFloat) :=
  match dictGet data "value" with
  | none => .ok none
  | some .jnull => .ok none
  | some v => (pyFloat v).map some

/-- An optional string entry (`description`, `memo`):
`str(data.get(k, '')).strip() if data.get(k) else None`. -/
def optStringField (data : PyDict) (k : String) : JVal :=
  match dictGet data k with
  | some v => if pyTruthy v then .jstr (pyStrip (pyStr v)) else .jnull
  | none => .jnull

/-- The `sanitized_data` dict literal of `submit_data`, in source entry
order; evaluating the `'value'` entry can raise. -/
def sanitize (data : PyDict) (now : String) : Except PyErr PyDict :=
  (coerceValue data).map (fun val =>
    [("title", JVal.jstr (pyStrip (pyStr (dictGetD data "title" (.jstr ""))))),
     ("description", optStringField data "description"),
     ("category", JVal.jstr (pyStrip (pyStr (dictGetD data "category" (.jstr ""))))),
     ("value", match val with | none => JVal.jnull | some x => JVal.jnum x),
     ("memo", optStringField data "memo"),
     ("timestamp", dictGetD data "timestamp" (.jstr now)),
     ("received_at", JVal.jstr now)])

/-- `POST /api/submit`.  `data` is the parsed JSON object (`request.get_json()`),
`now` the receipt instant, `store` the current on-disk collection (what
`load_data` returns inside the handler), `saveOk` whether the file write in
`save_data` succeeds.  Returns the response and the resulting on-disk
collection (unchanged unless the save succeeded). -/
def submit_data (data : PyDict) (now : String) (store : List PyDict) (saveOk : Bool) :
    SubmitResult × List PyDict :=
  if data.isEmpty then (.emptyBody, store)
  else if !(missingList data).isEmpty then (.missingFields (missingList data), store)
  else
    match sanitize data now with
    | .error (.valueError m) => (.validationError ("Validation error: " ++ m), store)
    | .error (.typeError _) => (.internalError, store)
    | .ok r =>
      let newId := get_next_id store
      let newRecord := r ++ [("id", JVal.jnum (.finite newId))]
      if saveOk then (.success newId, store ++ [newRecord])
      else (.storageError, store)

/-! ## Read path -/

/-- `GET /api/data`: count and full collection, over the raw read outcome. -/
def get_all_data (raw : Except String (List PyDict)) : ℕ × List PyDict :=
  let d := load_data raw
  (d.length, d)

/-- Result of `GET /api/data/<id>`: 200 with the record, or 404. -/
inductive GetResult where
  | found (item : PyDict)
  | notFound

/-- `item.get('id') == data_id` for an integer route id: Python `==`
compares numerically when the stored id is a finite number and is `False`
otherwise (`None`, non-numeric, `inf`, `nan`). -/
def idMatches (item : PyDict) (data_id : ℚ) : Bool :=
  match dictGet item "id" with
  | some (.jnum (.finite q)) => q == data_id
  | _ => false

/-- `GET /api/data/<id>`: first record whose id matches, else 404; the
`if not data_item` falsy check also sends an empty dict to 404. -/
def get_data_by_id (raw : Except String (List PyDict)) (data_id : ℚ) : GetResult :=
  match (load_data raw).find? (fun item => idMatches item data_id) with
  | some item => if item.isEmpty then .notFound else .found item
  | none => .notFound

/-! ## Helper lemmas -/

/-- The last element of the stored collection (the record a successful
submission appended). -/
def lastRecord (st : List PyDict) : PyDict := st.getLastD []

theorem lastRecord_concat (store : List PyDict) (r : PyDict) :
    lastRecord (store ++ [r]) = r := by
  simp [lastRecord]

/-- A submission whose body binds `title` and `category` to nonempty
strings and nothing else succeeds; the full sanitized record is computed. -/
theorem submit_basic (t c now : String) (store : List PyDict)
    (ht : t ≠ "") (hc : c ≠ "") :
    submit_data [("title", .jstr t), ("category", .jstr c)] now store true =
      (.success (get_next_id store),
       store ++ [[("title", .jstr (pyStrip t)), ("description", .jnull),
                  ("category", .jstr (pyStrip c)), ("value", .jnull),
                  ("memo", .jnull), ("timestamp", .jstr now),
                  ("received_at", .jstr now),
                  ("id", .jnum (.finite (get_next_id store)))]]) := by
  simp [submit_data, missingList, fieldMissing, required_fields, dictGet,
        pyTruthy, sanitize, coerceValue, optStringField, dictGetD, pyStr,
        Except.map, ht, hc]

theorem dictGet_append_ne (l : PyDict) (k k1 : String) (v : JVal)
    (h : k1 ≠ k) : dictGet (l ++ [(k, v)]) k1 = dictGet l k1 := by
  induction l with
  | nil =>
    simp only [List.nil_append, dictGet]
    rw [if_neg (fun hh => h hh.symm)]
  | cons p rest ih =>
    obtain ⟨k2, v2⟩ := p
    simp only [List.cons_append, dictGet]
    split
    · rfl
    · exact ih

theorem le_foldl_max_init (xs : List PyDict) (a : ℚ) :
    a ≤ xs.foldl (fun m item => max m (pyIdVal item)) a := by
  induction xs generalizing a with
  | nil => exact le_refl a
  | cons y ys ih => exact le_trans (le_max_left a (pyIdVal y)) (ih _)

theorem mem_le_foldl_max (xs : List PyDict) (x : PyDict) (hx : x ∈ xs) :
    ∀ a : ℚ, pyIdVal x ≤ xs.foldl (fun m item => max m (pyIdVal item)) a := by
  induction xs with
  | nil => cases hx
  | cons y ys ih =>
    intro a
    rcases List.mem_cons.mp hx with h | h
    · subst h
      exact le_trans (le_max_right a (pyIdVal x)) (le_foldl_max_init ys _)
    · exact ih h _

theorem foldl_max_init_or_mem (xs : List PyDict) :
    ∀ a : ℚ, xs.foldl (fun m item => max m (pyIdVal item)) a = a ∨
      ∃ y ∈ xs, xs.foldl (fun m item => max m (pyIdVal item)) a = pyIdVal y := by
  induction xs with
  | nil => exact fun a => Or.inl rfl
  | cons y ys ih =>
    intro a
    rcases ih (max a (pyIdVal y)) with h | ⟨z, hz, he⟩
    · rcases max_cases a (pyIdVal y) with ⟨hm, _⟩ | ⟨hm, _⟩
      · exact Or.inl (by rw [List.foldl_cons, h, hm])
      · exact Or.inr ⟨y, List.mem_cons_self y ys, by rw [List.foldl_cons, h, hm]⟩
    · exact Or.inr ⟨z, List.mem_cons_of_mem y hz, he⟩

/-! ## Claims -/

/-- C1, counterexample.  The claim says a whitespace-only `title` fails
validation with `MissingFields` and is never persisted.  In the code the
required-field check is `not data.get(field)` — truthiness before any
trim — so the nonempty string `" "` passes, and the record is persisted
with `title` trimmed to the empty string. -/
theorem C1_counterexample :
    (submit_data [("title", JVal.jstr " "), ("category", JVal.jstr "x")] "T" [] true).1
        = SubmitResult.success 1 ∧
    dictGet (lastRecord (submit_data [("title", JVal.jstr " "),
        ("category", JVal.jstr "x")] "T" [] true).2) "title" = some (JVal.jstr "") :=
  ⟨rfl, rfl⟩

/-- C1, amended.  A `title` that is a nonempty but whitespace-only string
(with a nonempty `category`) passes the required-field check, the
submission succeeds, and the persisted record carries `title` equal to the
empty string: emptiness is tested before trimming, not after. -/
theorem C1_theorem (s c now : String) (store : List PyDict)
    (hs : s ≠ "") (hstrip : pyStrip s = "") (hc : c ≠ "") :
    submit_data [("title", JVal.jstr s), ("category", JVal.jstr c)] now store true =
      (.success (get_next_id store),
       store ++ [[("title", JVal.jstr ""), ("description", JVal.jnull),
                  ("category", JVal.jstr (pyStrip c)), ("value", JVal.jnull),
                  ("memo", JVal.jnull), ("timestamp", JVal.jstr now),
                  ("received_at", JVal.jstr now),
                  ("id", JVal.jnum (.finite (get_next_id store)))]]) := by
  rw [submit_basic s c now store hs hc, hstrip]

/-- C1, witness: the tab-only title `"\t"` is accepted and stored as `""`. -/
theorem C1_witness :
    submit_data [("title", JVal.jstr "\t"), ("category", JVal.jstr "y")] "N" [] true =
      (.success 1,
       [[("title", JVal.jstr ""), ("description", JVal.jnull),
         ("category", JVal.jstr "y"), ("value", JVal.jnull),
         ("memo", JVal.jnull), ("timestamp", JVal.jstr "N"),
         ("received_at", JVal.jstr "N"),
         ("id", JVal.jnum (.finite 1))]]) :=
  C1_theorem "\t" "y" "N" [] (by decide) (by decide) (by decide)

/-- C2, counterexample.  Submitting `{}` is caught by the earlier
`if not data` guard and yields the `Empty request body` 400, which carries
no `missing_fields` list at all. -/
theorem C2_counterexample :
    submit_data [] "T" [] true = (SubmitResult.emptyBody, []) ∧
    SubmitResult.emptyBody ≠ SubmitResult.missingFields ["title", "category"] :=
  ⟨rfl, by decide⟩

/-- C2, amended.  `{}` never reaches the required-field check; instead, any
NONEMPTY object in which both `title` and `category` are absent or falsy
yields the 400 whose `missing_fields` lists both names together. -/
theorem C2_theorem (data : PyDict) (now : String) (store : List PyDict) (saveOk : Bool)
    (hne : data ≠ [])
    (ht : fieldMissing data "title" = true)
    (hc : fieldMissing data "category" = true) :
    submit_data data now store saveOk = (.missingFields ["title", "category"], store) := by
  have h0 : data.isEmpty = false := by
    cases data with
    | nil => exact absurd rfl hne
    | cons a l => rfl
  have h1 : missingList data = ["title", "category"] := by
    simp [missingList, required_fields, List.filter, ht, hc]
  simp [submit_data, h0, h1]

/-- C2, witness: `{"memo": "x"}` reports both missing names together. -/
theorem C2_witness :
    submit_data [("memo", JVal.jstr "x")] "T" [] true
      = (.missingFields ["title", "category"], []) :=
  C2_theorem [("memo", JVal.jstr "x")] "T" [] true (by simp) rfl rfl

/-- C3, counterexample.  The claim says a whitespace-only `description` is
stored as null; the code stores it as the empty string: `" "` is truthy,
so the `str(...).strip()` arm runs and produces `""`, not `None`. -/
theorem C3_counterexample :
    dictGet (lastRecord (submit_data [("title", JVal.jstr "t"), ("category", JVal.jstr "c"),
        ("description", JVal.jstr " ")] "T" [] true).2) "description"
      = some (JVal.jstr "") ∧ JVal.jstr "" ≠ JVal.jnull :=
  ⟨rfl, fun h => JVal.noConfusion h⟩

/-- C3, amended.  An optional string field (`description`, `memo`) that is
absent or falsy (e.g. the empty string) is persisted as null; but a
present, nonempty, whitespace-only string is truthy, so it is persisted as
the empty string after trimming — not as null. -/
theorem C3_theorem (t c d now : String) (store : List PyDict)
    (ht : t ≠ "") (hc : c ≠ "") :
    (dictGet (lastRecord (submit_data [("title", JVal.jstr t), ("category", JVal.jstr c)]
        now store true).2) "description" = some JVal.jnull ∧
     dictGet (lastRecord (submit_data [("title", JVal.jstr t), ("category", JVal.jstr c)]
        now store true).2) "memo" = some JVal.jnull) ∧
    (dictGet (lastRecord (submit_data [("title", JVal.jstr t), ("category", JVal.jstr c),
        ("description", JVal.jstr ""), ("memo", JVal.jstr "")] now store true).2) "description"
        = some JVal.jnull ∧
     dictGet (lastRecord (submit_data [("title", JVal.jstr t), ("category", JVal.jstr c),
        ("description", JVal.jstr ""), ("memo", JVal.jstr "")] now store true).2) "memo"
        = some JVal.jnull) ∧
    (d ≠ "" → pyStrip d = "" →
     dictGet (lastRecord (submit_data [("title", JVal.jstr t), ("category", JVal.jstr c),
        ("description", JVal.jstr d), ("memo", JVal.jstr d)] now store true).2) "description"
        = some (JVal.jstr "") ∧
     dictGet (lastRecord (submit_data [("title", JVal.jstr t), ("category", JVal.jstr c),
        ("description", JVal.jstr d), ("memo", JVal.jstr d)] now store true).2) "memo"
        = some (JVal.jstr "")) := by
  refine ⟨?_, ?_, ?_⟩
  · rw [submit_basic t c now store ht hc]
    simp [lastRecord_concat, dictGet]
  · simp [submit_data, missingList, fieldMissing, required_fields, dictGet, pyTruthy,
          sanitize, coerceValue, optStringField, dictGetD, pyStr, Except.map,
          ht, hc, lastRecord_concat]
  · intro hd hds
    simp [submit_data, missingList, fieldMissing, required_fields, dictGet, pyTruthy,
          sanitize, coerceValue, optStringField, dictGetD, pyStr, Except.map,
          ht, hc, hd, hds, lastRecord_concat]

/-- C3, witness: a space-only description is persisted as `""`. -/
theorem C3_witness :
    dictGet (lastRecord (submit_data [("title", JVal.jstr "a"), ("category", JVal.jstr "b"),
        ("description", JVal.jstr " "), ("memo", JVal.jstr " ")] "T" [] true).2) "description"
      = some (JVal.jstr "") :=
  (( C3_theorem "a" "b" " " "T" [] (by decide) (by decide)).2.2 (by decide) (by decide)).1

/-- C4, counterexample.  The claim says any non-coercible `value` yields the
400 `ValidationError`.  But `float([])` raises `TypeError`, which the
handler's `except ValueError` does not catch: the generic
`except Exception` arm answers with the 500 `Internal server error`
instead.  (Nothing is persisted in either case.) -/
theorem C4_counterexample :
    submit_data [("title", JVal.jstr "A"), ("category", JVal.jstr "B"),
        ("value", JVal.jarr [])] "T" [] true = (SubmitResult.internalError, []) ∧
    SubmitResult.internalError.isValidationError = false :=
  ⟨rfl, rfl⟩

/-- C4, amended.  With valid required fields and a present non-null
`value`: if the coercion raises `ValueError` (a non-numeric string), the
response is the 400 `Validation error` naming the offending value and
nothing is persisted; if it raises `TypeError` (a list or dict), the
response is the generic 500 and nothing is persisted either. -/
theorem C4_theorem (t c : String) (v : JVal) (m now : String) (store : List PyDict)
    (saveOk : Bool) (ht : t ≠ "") (hc : c ≠ "") (hv0 : v ≠ JVal.jnull) :
    (pyFloat v = .error (.valueError m) →
      submit_data [("title", JVal.jstr t), ("category", JVal.jstr c), ("value", v)]
          now store saveOk
        = (.validationError ("Validation error: " ++ m), store)) ∧
    (pyFloat v = .error (.typeError m) →
      submit_data [("title", JVal.jstr t), ("category", JVal.jstr c), ("value", v)]
          now store saveOk
        = (.internalError, store)) := by
  constructor <;> intro hv
  · cases v with
    | jnull => exact absurd rfl hv0
    | jbool b => simp [pyFloat] at hv
    | jnum x => simp [pyFloat] at hv
    | jarr l => simp [pyFloat] at hv
    | jobj l => simp [pyFloat] at hv
    | jstr s =>
      simp [submit_data, missingList, fieldMissing, required_fields, dictGet, pyTruthy,
            sanitize, coerceValue, Except.map, ht, hc, hv]
  · cases v with
    | jnull => exact absurd rfl hv0
    | jbool b => simp [pyFloat] at hv
    | jnum x => simp [pyFloat] at hv
    | jstr s =>
      rcases hp : parsePyFloat s with _ | x <;> simp [pyFloat, hp] at hv
    | jarr l =>
      simp [submit_data, missingList, fieldMissing, required_fields, dictGet, pyTruthy,
            sanitize, coerceValue, pyFloat, Except.map, ht, hc]
    | jobj l =>
      simp [submit_data, missingList, fieldMissing, required_fields, dictGet, pyTruthy,
            sanitize, coerceValue, pyFloat, Except.map, ht, hc]

/-- C4, witness: `value = "abc"` produces the 400 naming the value. -/
theorem C4_witness :
    submit_data [("title", JVal.jstr "A"), ("category", JVal.jstr "B"),
        ("value", JVal.jstr "abc")] "T" [] true
      = (.validationError "Validation error: could not convert string to float: abc", []) :=
  ( C4_theorem "A" "B" (JVal.jstr "abc") "could not convert string to float: abc" "T" [] true
      (by decide) (by decide) (fun h => JVal.noConfusion h)).1 rfl

/-- C5.  `get_next_id` returns 1 on the empty collection and the maximum
existing id plus one otherwise (the next id exceeds every stored id by at
least one and equals some stored id plus one); consequently three valid
submissions executed sequentially against an initially empty store are
assigned the ids 1, 2, 3. -/
theorem C5_theorem :
    get_next_id [] = 1 ∧
    (∀ store : List PyDict, store ≠ [] →
      (∃ y ∈ store, get_next_id store = pyIdVal y + 1) ∧
      (∀ x ∈ store, pyIdVal x + 1 ≤ get_next_id store)) ∧
    (∀ t1 c1 t2 c2 t3 c3 n1 n2 n3 : String,
      t1 ≠ "" → c1 ≠ "" → t2 ≠ "" → c2 ≠ "" → t3 ≠ "" → c3 ≠ "" →
      (submit_data [("title", JVal.jstr t1), ("category", JVal.jstr c1)] n1 [] true).1
          = .success 1 ∧
      (submit_data [("title", JVal.jstr t2), ("category", JVal.jstr c2)] n2
          (submit_data [("title", JVal.jstr t1), ("category", JVal.jstr c1)] n1 [] true).2
          true).1 = .success 2 ∧
      (submit_data [("title", JVal.jstr t3), ("category", JVal.jstr c3)] n3
          (submit_data [("title", JVal.jstr t2), ("category", JVal.jstr c2)] n2
            (submit_data [("title", JVal.jstr t1), ("category", JVal.jstr c1)] n1 [] true).2
            true).2 true).1 = .success 3) := by
  refine ⟨rfl, ?_, ?_⟩
  · intro store hne
    cases store with
    | nil => exact absurd rfl hne
    | cons x xs =>
      constructor
      · rcases foldl_max_init_or_mem xs (pyIdVal x) with h | ⟨y, hy, he⟩
        · exact ⟨x, List.mem_cons_self x xs, by simp [get_next_id, h]⟩
        · exact ⟨y, List.mem_cons_of_mem x hy, by simp [get_next_id, he]⟩
      · intro w hw
        have hb : pyIdVal w ≤ xs.foldl (fun m item => max m (pyIdVal item)) (pyIdVal x) := by
          rcases List.mem_cons.mp hw with h | h
          · exact h ▸ le_foldl_max_init xs _
          · exact mem_le_foldl_max xs w h _
        simpa [get_next_id] using add_le_add_right hb 1
  · intro t1 c1 t2 c2 t3 c3 n1 n2 n3 ht1 hc1 ht2 hc2 ht3 hc3
    have h1 := submit_basic t1 c1 n1 [] ht1 hc1
    have h2 := fun store => submit_basic t2 c2 n2 store ht2 hc2
    have h3 := fun store => submit_basic t3 c3 n3 store ht3 hc3
    refine ⟨?_, ?_, ?_⟩ <;> simp [h1, h2, h3, get_next_id, pyIdVal, dictGet] <;> norm_num

/-- C5, witness: three concrete sequential submissions get ids 1, 2, 3. -/
theorem C5_witness :
    (submit_data [("title", JVal.jstr "a"), ("category", JVal.jstr "b")] "T1" [] true).1
        = .success 1 ∧
    (submit_data [("title", JVal.jstr "c"), ("category", JVal.jstr "d")] "T2"
        (submit_data [("title", JVal.jstr "a"), ("category", JVal.jstr "b")] "T1" [] true).2
        true).1 = .success 2 ∧
    (submit_data [("title", JVal.jstr "e"), ("category", JVal.jstr "f")] "T3"
        (submit_data [("title", JVal.jstr "c"), ("category", JVal.jstr "d")] "T2"
          (submit_data [("title", JVal.jstr "a"), ("category", JVal.jstr "b")] "T1" [] true).2
          true).2 true).1 = .success 3 :=
  C5_theorem.2.2 "a" "b" "c" "d" "e" "f" "T1" "T2" "T3"
    (by decide) (by decide) (by decide) (by decide) (by decide) (by decide)

/-- C6.  Every validation failure (empty body, missing required fields, or
a `value`-coercion failure) leaves the stored collection unchanged, and
the `StorageError` outcome implies the save failed after all validation
had passed: the body was nonempty, no required field was missing, and
sanitization succeeded. -/
theorem C6_theorem (data : PyDict) (now : String) (store : List PyDict) (saveOk : Bool) :
    ((submit_data data now store saveOk).1.isValidationFailure = true →
      (submit_data data now store saveOk).2 = store) ∧
    ((submit_data data now store saveOk).1 = .storageError →
      saveOk = false ∧ data ≠ [] ∧ missingList data = [] ∧
      ∃ r, sanitize data now = .ok r) := by
  by_cases h0 : data.isEmpty = true
  · have hsub : submit_data data now store saveOk = (.emptyBody, store) := by
      simp [submit_data, h0]
    rw [hsub]
    exact ⟨fun _ => rfl, fun hcontra => SubmitResult.noConfusion hcontra⟩
  · have h0f : data.isEmpty = false := by simpa using h0
    have hdne : data ≠ [] := by
      intro he
      rw [he] at h0f
      exact Bool.noConfusion h0f
    by_cases h1 : (missingList data).isEmpty = true
    · have h1e : missingList data = [] := by simpa using h1
      rcases hs : sanitize data now with e | r
      · cases e with
        | valueError m =>
          have hsub : submit_data data now store saveOk
              = (.validationError ("Validation error: " ++ m), store) := by
            simp [submit_data, h0f, h1, hs]
          rw [hsub]
          exact ⟨fun _ => rfl, fun hcontra => SubmitResult.noConfusion hcontra⟩
        | typeError m =>
          have hsub : submit_data data now store saveOk = (.internalError, store) := by
            simp [submit_data, h0f, h1, hs]
          rw [hsub]
          exact ⟨fun _ => rfl, fun hcontra => SubmitResult.noConfusion hcontra⟩
      · cases saveOk with
        | false =>
          have hsub : submit_data data now store false = (.storageError, store) := by
            simp [submit_data, h0f, h1, hs]
          rw [hsub]
          exact ⟨fun _ => rfl, fun _ => ⟨rfl, hdne, h1e, ⟨r, hs ▸ rfl⟩⟩⟩
        | true =>
          have hsub : submit_data data now store true
              = (.success (get_next_id store),
                 store ++ [r ++ [("id", JVal.jnum (.finite (get_next_id store)))]]) := by
            simp [submit_data, h0f, h1, hs]
          rw [hsub]
          exact ⟨fun hcontra => by simp [SubmitResult.isValidationFailure] at hcontra,
                 fun hcontra => SubmitResult.noConfusion hcontra⟩
    · have h1f : (missingList data).isEmpty = false := by simpa using h1
      have hsub : submit_data data now store saveOk
          = (.missingFields (missingList data), store) := by
        simp [submit_data, h0f, h1f]
      rw [hsub]
      exact ⟨fun _ => rfl, fun hcontra => SubmitResult.noConfusion hcontra⟩

/-- C6, witness: an empty body leaves the store unchanged, and a valid body
has no missing fields when its save fails with `StorageError`. -/
theorem C6_witness :
    ((submit_data [] "T" [] true).2 = []) ∧
    missingList [("title", JVal.jstr "a"), ("category", JVal.jstr "b")] = [] :=
  ⟨(C6_theorem [] "T" [] true).1 rfl,
   ((C6_theorem [("title", JVal.jstr "a"), ("category", JVal.jstr "b")] "T" [] false).2
      rfl).2.2.1⟩

/-- C7.  A failed read (`load_data`'s `except` arm) degrades to the empty
collection rather than propagating: `GET /api/data` then answers count 0
with an empty list, and `GET /api/data/<id>` answers 404, for every raised
exception and every requested id. -/
theorem C7_theorem (e : String) (data_id : ℚ) :
    load_data (.error e) = [] ∧
    get_all_data (.error e) = (0, []) ∧
    get_data_by_id (.error e) data_id = .notFound :=
  ⟨rfl, rfl, rfl⟩

/-- C8.  The persisted `received_at` is always the server receipt time, and
a client-supplied `received_at` key has no influence: every sanitized
record carries `received_at = now`, and two submissions identical except
for the client's `received_at` value produce identical outcomes and
identical stored collections at the same server time. -/
theorem C8_theorem :
    (∀ (data : PyDict) (now : String) (r : PyDict),
      sanitize data now = .ok r → dictGet r "received_at" = some (JVal.jstr now)) ∧
    (∀ (base : PyDict) (v1 v2 : JVal) (now : String) (store : List PyDict) (saveOk : Bool),
      submit_data (base ++ [("received_at", v1)]) now store saveOk
        = submit_data (base ++ [("received_at", v2)]) now store saveOk) := by
  constructor
  · intro data now r hs
    rcases hcv : coerceValue data with e | val
    · rw [sanitize, hcv] at hs
      exact Except.noConfusion hs
    · rw [sanitize, hcv] at hs
      cases hs
      rfl
  · intro base v1 v2 now store saveOk
    have hget : ∀ k : String, k ≠ "received_at" →
        dictGet (base ++ [("received_at", v1)]) k
          = dictGet (base ++ [("received_at", v2)]) k := by
      intro k hk
      rw [dictGet_append_ne base "received_at" k v1 hk,
          dictGet_append_ne base "received_at" k v2 hk]
    have hmiss : missingList (base ++ [("received_at", v1)])
        = missingList (base ++ [("received_at", v2)]) := by
      simp only [missingList, required_fields, List.filter_cons, List.filter_nil,
        fieldMissing, hget "title" (by decide), hget "category" (by decide)]
    have hsan : sanitize (base ++ [("received_at", v1)]) now
        = sanitize (base ++ [("received_at", v2)]) now := by
      simp only [sanitize, coerceValue, optStringField, dictGetD,
        hget "title" (by decide), hget "category" (by decide),
        hget "description" (by decide), hget "value" (by decide),
        hget "memo" (by decide), hget "timestamp" (by decide)]
    have hemp : (base ++ [("received_at", v1)]).isEmpty
        = (base ++ [("received_at", v2)]).isEmpty := by
      cases base <;> rfl
    simp only [submit_data, hmiss, hsan, hemp]

/-- C8, witness: a sanitized record carries the server receipt time. -/
theorem C8_witness :
    dictGet [("title", JVal.jstr "a"), ("description", JVal.jnull),
             ("category", JVal.jstr "b"), ("value", JVal.jnull),
             ("memo", JVal.jnull), ("timestamp", JVal.jstr "T"),
             ("received_at", JVal.jstr "T")] "received_at" = some (JVal.jstr "T") :=
  C8_theorem.1 [("title", JVal.jstr "a"), ("category", JVal.jstr "b")] "T" _ rfl

/-- C9.  Every record `submit_data` adds to the stored collection has
exactly the eight keys `title`, `description`, `category`, `value`,
`memo`, `timestamp`, `received_at`, `id` (in the dict-literal order of the
source, with `id` appended last); any other key of the request body is
discarded. -/
theorem C9_theorem (data : PyDict) (now : String) (store : List PyDict) (saveOk : Bool)
    (item : PyDict) (hmem : item ∈ (submit_data data now store saveOk).2) :
    item ∈ store ∨ item.map Prod.fst
      = ["title", "description", "category", "value", "memo", "timestamp",
         "received_at", "id"] := by
  by_cases h0 : data.isEmpty = true
  · rw [show submit_data data now store saveOk = (.emptyBody, store) from by
      simp [submit_data, h0]] at hmem
    exact Or.inl hmem
  · have h0f : data.isEmpty = false := by simpa using h0
    by_cases h1 : (missingList data).isEmpty = true
    · rcases hcv : coerceValue data with e | val
      · cases e with
        | valueError m =>
          rw [show submit_data data now store saveOk
              = (.validationError ("Validation error: " ++ m), store) from by
            simp [submit_data, h0f, h1, sanitize, hcv, Except.map]] at hmem
          exact Or.inl hmem
        | typeError m =>
          rw [show submit_data data now store saveOk = (.internalError, store) from by
            simp [submit_data, h0f, h1, sanitize, hcv, Except.map]] at hmem
          exact Or.inl hmem
      · cases saveOk with
        | false =>
          rw [show submit_data data now store false = (.storageError, store) from by
            simp [submit_data, h0f, h1, sanitize, hcv, Except.map]] at hmem
          exact Or.inl hmem
        | true =>
          simp [submit_data, h0f, h1, sanitize, hcv, Except.map, List.mem_append] at hmem
          rcases hmem with h | h
          · exact Or.inl h
          · subst h
            exact Or.inr (by simp)
    · have h1f : (missingList data).isEmpty = false := by simpa using h1
      rw [show submit_data data now store saveOk
          = (.missingFields (missingList data), store) from by
        simp [submit_data, h0f, h1f]] at hmem
      exact Or.inl hmem

/-- C9, witness: a body with an extra `junk` key produces a record with
exactly the eight expected keys; `junk` is discarded. -/
theorem C9_witness :
    ([("title", JVal.jstr "a"), ("description", JVal.jnull), ("category", JVal.jstr "b"),
      ("value", JVal.jnull), ("memo", JVal.jnull), ("timestamp", JVal.jstr "T"),
      ("received_at", JVal.jstr "T"), ("id", JVal.jnum (.finite 1))] : PyDict) ∈
      ([] : List PyDict) ∨
    ([("title", JVal.jstr "a"), ("description", JVal.jnull), ("category", JVal.jstr "b"),
      ("value", JVal.jnull), ("memo", JVal.jnull), ("timestamp", JVal.jstr "T"),
      ("received_at", JVal.jstr "T"), ("id", JVal.jnum (.finite 1))] : PyDict).map Prod.fst
      = ["title", "description", "category", "value", "memo", "timestamp",
         "received_at", "id"] :=
  C9_theorem [("title", JVal.jstr "a"), ("category", JVal.jstr "b"), ("junk", JVal.jstr "z")]
    "T" [] true _ (List.mem_singleton.mpr rfl)

/-- C10.  A required field bound to any falsy value (0, `false`, `null`,
`""`, …) is reported in `missing_fields` exactly as when the key is
absent: the check is `not data.get(field)`, which cannot distinguish a
present falsy value from a missing key. -/
theorem C10_theorem (v c : JVal) (now : String) (store : List PyDict) (saveOk : Bool)
    (hv : pyTruthy v = false) (hc : pyTruthy c = true) :
    submit_data [("title", v), ("category", c)] now store saveOk
      = (.missingFields ["title"], store) ∧
    submit_data [("category", c)] now store saveOk
      = (.missingFields ["title"], store) ∧
    submit_data [("title", c), ("category", v)] now store saveOk
      = (.missingFields ["category"], store) ∧
    submit_data [("title", c)] now store saveOk
      = (.missingFields ["category"], store) := by
  refine ⟨?_, ?_, ?_, ?_⟩ <;>
    simp [submit_data, missingList, required_fields, fieldMissing, dictGet, hv, hc]

/-- C10, witness: `title = 0` is reported missing like an absent `title`. -/
theorem C10_witness :
    submit_data [("title", JVal.jnum (.finite 0)), ("category", JVal.jstr "x")] "T" [] true
      = (.missingFields ["title"], []) :=
  (C10_theorem (JVal.jnum (.finite 0)) (JVal.jstr "x") "T" [] true (by decide) (by decide)).1

end PWA
